import Mathlib

/-!
Shallow embedding of the RTIMS stock-mutation ledger, alert derivation and
broadcast fan-out, translated from the Go backend:

* `ProductService.UpdateProductStock`, `GetProduct`, `CreateProduct`
  (database service file, `part_006`),
* `ProductHandler.UpdateStock` and `ProductHandler.CreateProduct`
  (`backend/internal/handlers/auth.go`),
* `DashboardService.GetAlerts` (database service file, `part_007`),
* `sendStockUpdates` and `BroadcastStockUpdate` (websocket file, `part_012`),
* the `products` / `stock_movements` / `notifications` tables of
  `database/migrations/001_initial_schema.sql`, whose CHECK constraints
  (`stock >= 0`, `minimum_threshold >= 0`, `reason` in a closed set, the
  `product_id` foreign key) are part of the storage semantics.

UUIDs are modelled by a monotone counter `nextId` threaded through the
database state: each `uuid.New()` call takes the current counter value and
bumps it, which preserves exactly the property the code relies on
(freshness / distinctness of generated ids).
-/

namespace RTIMS

/-- The closed set of movement reasons (`models.MovementReason` in
`internal/models/stock.go`, mirrored by the schema CHECK on
`stock_movements.reason`). `ret` stands for the source's `return`. -/
inductive Reason where
  | purchase
  | sale
  | adjustment
  | ret
  | damage
  | transfer
deriving DecidableEq

/-- A row of the `products` table: `id`, `name`, `sku`, `stock`,
`minimum_threshold` (price, category, supplier info and timestamps are
carried by the source row but never read by the stock-mutation or alert
paths, so they are omitted). The schema constrains `stock >= 0` and
`minimum_threshold >= 0`; those CHECKs are enforced by the statement
embeddings below, not by this record type. -/
structure Product where
  pid : Nat
  name : String
  sku : String
  stock : Int
  minimumThreshold : Int
deriving DecidableEq

/-- A row of the append-only `stock_movements` table
(`models.StockMovement`): `id`, `product_id`, `change`, `reason`,
`created_by`, `notes` (the `created_at` timestamp is omitted). -/
structure Movement where
  mid : Nat
  productId : Nat
  change : Int
  reason : Reason
  createdBy : Nat
  notes : String
deriving DecidableEq

/-- A row of the `notifications` table (`models.Notification`): `id`,
`user_id`, `message`, `type`, `is_read`. -/
structure Notification where
  nid : Nat
  userId : Nat
  message : String
  ntype : String
  isRead : Bool
deriving DecidableEq

/-- The durable store reachable through the transactional primitives, plus
the process-local uuid generator (`nextId`). -/
structure DB where
  products : List Product
  movements : List Movement
  notifications : List Notification
  nextId : Nat
deriving DecidableEq

/-- Errors surfaced by the stock-mutation path. `storage` is the generic
wrapped error the Go service actually produces
(`fmt.Errorf("failed to ...: %w", err)`); `insufficientStock` is the typed
error named by the spec's error taxonomy and is declared here only so that
the spec's claim about it can be stated — the source never constructs it. -/
inductive StockError where
  | insufficientStock
  | storage (msg : String)
deriving DecidableEq

/-- Domain events handed to the broadcast hub: `BroadcastStockUpdate`
produces `stockChange`, `BroadcastNotification` produces `notification`
(websocket file, `part_012`, lines 187-220). -/
inductive Event where
  | stockChange (productId : Nat) (newStock : Int)
  | notification (userId : Nat) (message : String) (ntype : String)
deriving DecidableEq

/-- Row lookup `SELECT ... FROM products WHERE id = $1` (first matching
row, as a primary-key lookup). -/
def findProduct (db : DB) (pid : Nat) : Option Product :=
  db.products.find? (fun p => p.pid == pid)

/-- Observable quantity of a product, if the row exists. -/
def stockOf (db : DB) (pid : Nat) : Option Int :=
  (findProduct db pid).map Product.stock

/-- The statement `UPDATE products SET stock = stock + $1 WHERE id = $3`
under the schema constraint `CHECK (stock >= 0)`: the statement fails
(check-constraint violation) iff some updated row would go negative;
otherwise every row whose `id` matches gets `change` added. Matching zero
rows is a success. -/
def execStockUpdate (products : List Product) (pid : Nat) (change : Int) :
    Option (List Product) :=
  if products.any (fun p => p.pid == pid && decide (p.stock + change < 0)) then
    none
  else
    some (products.map (fun p =>
      if p.pid == pid then { p with stock := p.stock + change } else p))

/-- `ProductService.GetProduct` (service file `part_006`, lines 127-152):
primary-key lookup, `"product not found"` on `sql.ErrNoRows`. -/
def getProduct (db : DB) (pid : Nat) : Except String Product :=
  match findProduct db pid with
  | some p => Except.ok p
  | none => Except.error "product not found"

/-- `ProductService.UpdateProductStock` (service file `part_006`, lines
253-277). Inside one transaction: `UPDATE products SET stock = stock + $1
WHERE id = $3`, then `INSERT INTO stock_movements ...` with a fresh
`uuid.New()` id, then commit. A failed statement aborts the transaction
(`defer tx.Rollback()`), so an error leaves the store untouched. The
UPDATE fails on the schema CHECK `stock >= 0`; the INSERT fails on the
`product_id` foreign key when no such product exists. The Go function
returns only `error`; the new quantity and the persisted movement id are
not returned to the caller. -/
def updateProductStock (db : DB) (productID : Nat) (change : Int)
    (reason : Reason) (createdBy : Nat) (notes : String) :
    Except StockError DB :=
  match execStockUpdate db.products productID change with
  | none => Except.error (StockError.storage "failed to update product stock")
  | some products' =>
    if (db.products.any (fun p => p.pid == productID)) then
      Except.ok
        { products := products'
          movements := db.movements ++
            [⟨db.nextId, productID, change, reason, createdBy, notes⟩]
          notifications := db.notifications
          nextId := db.nextId + 1 }
    else
      Except.error (StockError.storage "failed to create stock movement")

/-- The transaction as its caller observes it: the committed store plus an
optional error. On failure the transaction was rolled back, so the
original store is returned. -/
def runUpdateProductStock (db : DB) (productID : Nat) (change : Int)
    (reason : Reason) (createdBy : Nat) (notes : String) :
    DB × Option StockError :=
  match updateProductStock db productID change reason createdBy notes with
  | Except.ok db' => (db', none)
  | Except.error e => (db, some e)

/-- One inbound stock-change call: the delta plus the request fields that
are stored with the movement row. -/
structure StockCall where
  change : Int
  reason : Reason
  createdBy : Nat
  notes : String
deriving DecidableEq

/-- A sequence of `UpdateProductStock` calls against one product, applied
in order; returns the final committed store and, per call, whether that
call committed. -/
def runStockCalls (db : DB) (pid : Nat) : List StockCall → DB × List Bool
  | [] => (db, [])
  | c :: cs =>
    match updateProductStock db pid c.change c.reason c.createdBy c.notes with
    | Except.ok db' =>
      let r := runStockCalls db' pid cs
      (r.1, true :: r.2)
    | Except.error _ =>
      let r := runStockCalls db pid cs
      (r.1, false :: r.2)

/-- Sum of the deltas of the calls flagged as committed. -/
def successDeltaSum : List StockCall → List Bool → Int
  | c :: cs, b :: bs =>
    (if b then c.change else 0) + successDeltaSum cs bs
  | _, _ => 0

/-- Sum of the `change` column over a product's movement rows. -/
def movementSum (db : DB) (pid : Nat) : Int :=
  ((db.movements.filter (fun m => m.productId == pid)).map Movement.change).sum

/-- Count of persisted low-stock notifications. -/
def lowStockNotifCount (db : DB) : Nat :=
  (db.notifications.filter (fun n => n.ntype == "low_stock")).length

deriving instance DecidableEq for Except

/-- Result of one `ProductHandler.UpdateStock` request: the committed
store, the events handed to the hub (in emission order), and the HTTP
response body's `stock_movement` object (or an error response). -/
structure UpdateStockResult where
  db : DB
  events : List Event
  response : Except String Movement
deriving DecidableEq

/-- `ProductHandler.UpdateStock` (`auth.go`, lines 797-884). Reads the
product, runs `UpdateProductStock`, re-reads the product, broadcasts a
`stock_change` event with the re-read quantity, and — when
`updatedProduct.Stock <= updatedProduct.MinimumThreshold &&
updatedProduct.MinimumThreshold > 0` — persists a low-stock notification
(fresh `uuid.New()` id) and broadcasts it. The response's
`stock_movement` object is built from the request with another fresh
`uuid.New()` id; the Go message text is
`"Product '<name>' stock is low (<n> remaining)"`, rendered here without
the quote characters. -/
def updateStock (db : DB) (id : Nat) (change : Int) (reason : Reason)
    (userID : Nat) (notes : String) : UpdateStockResult :=
  match getProduct db id with
  | Except.error _ => ⟨db, [], Except.error "Failed to get product"⟩
  | Except.ok _product =>
    match updateProductStock db id change reason userID notes with
    | Except.error _ => ⟨db, [], Except.error "Failed to update stock"⟩
    | Except.ok db1 =>
      match getProduct db1 id with
      | Except.error _ =>
        ⟨db1, [], Except.error "Failed to get updated product"⟩
      | Except.ok updated =>
        let stockEvent := Event.stockChange id updated.stock
        if updated.stock ≤ updated.minimumThreshold ∧
            0 < updated.minimumThreshold then
          let msg := "Product " ++ updated.name ++ " stock is low (" ++
            toString updated.stock ++ " remaining)"
          let notif : Notification :=
            ⟨db1.nextId, userID, msg, "low_stock", false⟩
          let db2 : DB :=
            { db1 with
              notifications := db1.notifications ++ [notif]
              nextId := db1.nextId + 1 }
          ⟨{ db2 with nextId := db2.nextId + 1 },
            [stockEvent, Event.notification userID msg "low_stock"],
            Except.ok ⟨db2.nextId, id, change, reason, userID, notes⟩⟩
        else
          ⟨{ db1 with nextId := db1.nextId + 1 },
            [stockEvent],
            Except.ok ⟨db1.nextId, id, change, reason, userID, notes⟩⟩

/-- Result of one `ProductHandler.CreateProduct` request. -/
structure CreateProductResult where
  db : DB
  events : List Event
  response : Except String Product
deriving DecidableEq

/-- `ProductHandler.CreateProduct` (`auth.go`, lines 609-668) together
with `ProductService.CreateProduct` (service file `part_006`, lines
154-175). The INSERT writes the product row with `stock = req.Stock`
(subject to the schema CHECKs `stock >= 0`, `minimum_threshold >= 0` and
the `sku` UNIQUE constraint); then, when `req.Stock > 0`, the handler
additionally calls `UpdateProductStock(product.ID, req.Stock, purchase,
userID, "Initial stock")`, and broadcasts a stock update when
`req.Stock <= req.MinimumThreshold`. The INSERT is its own transaction:
when the movement call fails afterwards, the product row stays. -/
def createProduct (db : DB) (name sku : String) (stock : Int)
    (threshold : Int) (userID : Nat) : CreateProductResult :=
  if stock < 0 ∨ threshold < 0 ∨ db.products.any (fun p => p.sku == sku) then
    ⟨db, [], Except.error "Failed to create product"⟩
  else
    let prod : Product := ⟨db.nextId, name, sku, stock, threshold⟩
    let db1 : DB :=
      { db with products := db.products ++ [prod], nextId := db.nextId + 1 }
    if 0 < stock then
      match updateProductStock db1 prod.pid stock Reason.purchase userID
          "Initial stock" with
      | Except.error _ =>
        ⟨db1, [], Except.error "Failed to create initial stock movement"⟩
      | Except.ok db2 =>
        if stock ≤ threshold then
          ⟨db2, [Event.stockChange prod.pid stock], Except.ok prod⟩
        else
          ⟨db2, [], Except.ok prod⟩
    else
      ⟨db1, [], Except.ok prod⟩

/-- One entry of the dashboard alert list. -/
structure Alert where
  productId : Nat
  productName : String
  productSku : String
  currentStock : Int
  minimumThreshold : Int
  severity : String
deriving DecidableEq

/-- `DashboardService.GetAlerts` (service file `part_007`, lines 655-700):
`SELECT ... FROM products WHERE stock <= minimum_threshold AND
minimum_threshold > 0 ORDER BY stock ASC LIMIT 10`, each row mapped to an
alert whose severity is `"critical"` when `stock == 0` and `"high"`
otherwise. -/
def getAlerts (db : DB) : List Alert :=
  ((List.insertionSort (fun a b : Product => a.stock ≤ b.stock)
      (db.products.filter (fun p =>
        decide (p.stock ≤ p.minimumThreshold) &&
        decide (0 < p.minimumThreshold)))).take 10).map
    (fun p =>
      ⟨p.pid, p.name, p.sku, p.stock, p.minimumThreshold,
        if p.stock = 0 then "critical" else "high"⟩)

/-- The rows of the snapshot `sendStockUpdates` pushes to a newly
connected client (websocket file `part_012`, lines 67-112):
`SELECT ... FROM products WHERE stock <= minimum_threshold AND
minimum_threshold > 0`. -/
def lowStockSnapshotRows (db : DB) : List Product :=
  db.products.filter (fun p =>
    decide (p.stock ≤ p.minimumThreshold) && decide (0 < p.minimumThreshold))

/-- `sendStockUpdates` sends one `stock_update` message carrying the rows,
and sends nothing when no product is low. -/
def sendStockUpdates (db : DB) : Option (List Product) :=
  if lowStockSnapshotRows db = [] then none else some (lowStockSnapshotRows db)

/-- Modelled from the spec: the `Hub` type and its run loop are not under
`src/` (only the websocket helpers that send to the hub are), so the
per-session state is taken from spec section 4.3 and the `Client` literal
in `ServeWebSocket`: one registered session per client with a bounded
outbound queue (`Send: make(chan []byte, 256)`). -/
structure Session where
  sid : Nat
  queue : List Event
  capacity : Nat
deriving DecidableEq

/-- Modelled from the spec: the hub registry (sessions keyed by the hub
loop) and the observability drop counter of spec section 4.3. -/
structure Hub where
  sessions : List Session
  dropCount : Nat
deriving DecidableEq

/-- Modelled from the spec: the non-blocking enqueue of `broadcast(event)`
in spec section 4.3 — the event is appended to the session's outbound
queue when there is room, and dropped for that session when the queue is
full. -/
def enqueueEvent (e : Event) (s : Session) : Session :=
  if s.queue.length < s.capacity then { s with queue := s.queue ++ [e] } else s

/-- Modelled from the spec: `broadcast(event)` of spec section 4.3 — for
every registered session a non-blocking enqueue is attempted, and the drop
counter grows by the number of sessions whose queue was full. -/
def hubBroadcast (h : Hub) (e : Event) : Hub :=
  { sessions := h.sessions.map (enqueueEvent e)
    dropCount := h.dropCount +
      (h.sessions.filter (fun s => s.capacity ≤ s.queue.length)).length }

/-- `BroadcastStockUpdate` (websocket file `part_012`, lines 187-202):
builds the `stock_change` wire event and hands it to the hub. -/
def broadcastStockUpdate (h : Hub) (productID : Nat) (newStock : Int) : Hub :=
  hubBroadcast h (Event.stockChange productID newStock)

/-- A one-product store (stock 5, threshold 3), used to instantiate the
theorems on concrete inputs. -/
def exDB1 : DB := ⟨[⟨1, "Widget", "SKU1", 5, 3⟩], [], [], 10⟩

/-- Three stock calls: a committing sale of 2, a sale of 4 that violates
the non-negativity constraint at quantity 3, and a committing return. -/
def exCalls : List StockCall :=
  [⟨-2, Reason.sale, 7, ""⟩, ⟨-4, Reason.sale, 7, ""⟩, ⟨1, Reason.ret, 7, ""⟩]

/-- The committed store after the sale of 2 against `exDB1`. -/
def exDB3res : DB :=
  ⟨[⟨1, "Widget", "SKU1", 3, 3⟩], [⟨10, 1, -2, Reason.sale, 7, ""⟩], [], 11⟩

/-- A one-product store already at quantity 0. -/
def exDB2 : DB := ⟨[⟨1, "Widget", "SKU1", 0, 5⟩], [], [], 10⟩

/-- A one-product store at quantity 9 with threshold 10: already inside
the low-stock band before any call. -/
def exDB5 : DB := ⟨[⟨1, "Widget", "SKU1", 9, 10⟩], [], [], 100⟩

/-- The committed store after one sale of 1 against `exDB5`. -/
def exDB5res : DB :=
  ⟨[⟨1, "Widget", "SKU1", 8, 10⟩], [⟨100, 1, -1, Reason.sale, 7, ""⟩], [], 101⟩

/-- A one-product store with threshold 0. -/
def exDB6 : DB := ⟨[⟨1, "Widget", "SKU1", 5, 0⟩], [], [], 100⟩

/-- The committed store after a purchase of 3 against `exDB6`. -/
def exDB6res : DB :=
  ⟨[⟨1, "Widget", "SKU1", 8, 0⟩], [⟨100, 1, 3, Reason.purchase, 7, ""⟩], [], 101⟩

/-- A three-product store whose alert list is nonempty. -/
def exDB9 : DB :=
  ⟨[⟨1, "A", "S1", 0, 5⟩, ⟨2, "B", "S2", 3, 5⟩, ⟨3, "C", "S3", 9, 5⟩],
    [], [], 9⟩

/-- A store holding a zero-threshold product at quantity 0 next to a
positive-threshold product. -/
def exDB10 : DB :=
  ⟨[⟨1, "A", "S1", 0, 0⟩, ⟨2, "B", "S2", 0, 5⟩], [], [], 10⟩

/-- A hub with one session that has room and one whose queue is full. -/
def exHub : Hub :=
  ⟨[⟨1, [], 2⟩, ⟨2, [Event.stockChange 9 9, Event.stockChange 9 8], 2⟩], 0⟩

/-- A committed `UpdateProductStock` transaction passed the check
constraint, found the product, and produced exactly the updated product
table, one appended movement row and a bumped uuid counter. -/
theorem updateProductStock_ok_elim {db : DB} {pid : Nat} {c : Int}
    {r : Reason} {u : Nat} {n : String} {db' : DB}
    (h : updateProductStock db pid c r u n = Except.ok db') :
    db.products.any (fun p => p.pid == pid && decide (p.stock + c < 0)) =
      false ∧
    db.products.any (fun p => p.pid == pid) = true ∧
    db' = { products := db.products.map (fun p =>
              if p.pid == pid then { p with stock := p.stock + c } else p)
            movements := db.movements ++ [⟨db.nextId, pid, c, r, u, n⟩]
            notifications := db.notifications
            nextId := db.nextId + 1 } := by
  unfold updateProductStock execStockUpdate at h
  split at h
  · exact absurd h (by simp)
  · rename_i products' heq
    split at h
    · rename_i h2
      split at heq
      · exact absurd heq (by simp)
      · rename_i h1
        obtain rfl : products' = _ := (Option.some.injEq _ _).mp heq.symm
        refine ⟨by simpa using h1, h2, ?_⟩
        exact ((Except.ok.injEq _ _).mp h).symm
    · exact absurd h (by simp)

/-- A committed transaction adds exactly the delta to the target product
row, and the check constraint guarantees the new quantity is nonnegative. -/
theorem updateProductStock_ok_find {db : DB} {pid : Nat} {c : Int}
    {r : Reason} {u : Nat} {n : String} {db' : DB} {p0 : Product}
    (h0 : findProduct db pid = some p0)
    (h : updateProductStock db pid c r u n = Except.ok db') :
    findProduct db' pid = some { p0 with stock := p0.stock + c } ∧
      0 ≤ p0.stock + c := by
  obtain ⟨hchk, _hex, hdb⟩ := updateProductStock_ok_elim h
  have h0' : db.products.find? (fun q : Product => q.pid == pid) = some p0 :=
    h0
  have hmem : p0 ∈ db.products := List.mem_of_find?_eq_some h0'
  have hpid : (p0.pid == pid) = true := by
    have := List.find?_some h0'
    simpa using this
  have hnn : 0 ≤ p0.stock + c := by
    have hrow := (List.any_eq_false.mp hchk) p0 hmem
    simp only [hpid, Bool.true_and, decide_eq_true_eq] at hrow
    omega
  refine ⟨?_, hnn⟩
  subst hdb
  show List.find? _ (db.products.map _) = _
  rw [List.find?_map]
  have hcomp : ((fun q : Product => q.pid == pid) ∘ (fun p : Product =>
      if p.pid == pid then { p with stock := p.stock + c } else p)) =
      fun q : Product => q.pid == pid := by
    funext q
    by_cases hq : q.pid = pid <;> simp [hq]
  rw [hcomp]
  rw [h0']
  have hpid' : p0.pid = pid := by simpa using hpid
  simp [hpid']

/-- A committed transaction presupposes that the product row exists. -/
theorem updateProductStock_ok_exists {db : DB} {pid : Nat} {c : Int}
    {r : Reason} {u : Nat} {n : String} {db' : DB}
    (h : updateProductStock db pid c r u n = Except.ok db') :
    ∃ p0, findProduct db pid = some p0 := by
  obtain ⟨_, hex, _⟩ := updateProductStock_ok_elim h
  have hsome : (findProduct db pid).isSome := by
    rw [findProduct, List.find?_isSome]
    obtain ⟨p, hp, hpe⟩ := List.any_eq_true.mp hex
    exact ⟨p, hp, hpe⟩
  exact Option.isSome_iff_exists.mp hsome

/-- Main induction for the call-sequence invariant: starting from a
nonnegative product row, every run of `runStockCalls` ends at a row whose
quantity is the initial one plus the committed deltas, and stays
nonnegative. -/
theorem runStockCalls_find (pid : Nat) :
    ∀ (cs : List StockCall) (db : DB) (p0 : Product),
      findProduct db pid = some p0 → 0 ≤ p0.stock →
      ∃ p1, findProduct (runStockCalls db pid cs).1 pid = some p1 ∧
        p1.stock = p0.stock + successDeltaSum cs (runStockCalls db pid cs).2 ∧
        0 ≤ p1.stock
  | [], db, p0, h0, hnn =>
    ⟨p0, h0, by simp [runStockCalls, successDeltaSum], hnn⟩
  | c :: cs, db, p0, h0, hnn => by
    cases hstep :
        updateProductStock db pid c.change c.reason c.createdBy c.notes with
    | ok db' =>
      obtain ⟨hfind, hstocknn⟩ := updateProductStock_ok_find h0 hstep
      obtain ⟨p1, hf1, hs1, hnn1⟩ :=
        runStockCalls_find pid cs db' _ hfind hstocknn
      refine ⟨p1, ?_, ?_, hnn1⟩
      · simp [runStockCalls, hstep, hf1]
      · simp only [runStockCalls, hstep]
        simp only [successDeltaSum, if_pos rfl]
        simp at hs1 ⊢
        omega
    | error e =>
      obtain ⟨p1, hf1, hs1, hnn1⟩ := runStockCalls_find pid cs db p0 h0 hnn
      refine ⟨p1, ?_, ?_, hnn1⟩
      · simp [runStockCalls, hstep, hf1]
      · simp only [runStockCalls, hstep]
        simp only [successDeltaSum]
        simp at hs1 ⊢
        omega

/-- C1: for every sequence of `applyStockChange` (`UpdateProductStock`)
calls on one product, the final quantity equals the initial quantity plus
the sum of all delta values of the calls that did not fail, and the
committed quantity is never negative after any call. -/
theorem stock_sequence_final_and_nonneg (db : DB) (pid : Nat)
    (calls : List StockCall) (p0 : Product)
    (h0 : findProduct db pid = some p0) (hnn : 0 ≤ p0.stock) :
    stockOf (runStockCalls db pid calls).1 pid =
      some (p0.stock + successDeltaSum calls (runStockCalls db pid calls).2) ∧
    ∀ k q, stockOf (runStockCalls db pid (calls.take k)).1 pid = some q →
      0 ≤ q := by
  constructor
  · obtain ⟨p1, hf, hs, _⟩ := runStockCalls_find pid calls db p0 h0 hnn
    simp [stockOf, hf, hs]
  · intro k q hq
    obtain ⟨p1, hf, _, hnn1⟩ := runStockCalls_find pid (calls.take k) db p0 h0 hnn
    rw [stockOf, hf] at hq
    simp at hq
    omega

/-- Witness for C1: against a store with quantity 5 (threshold 3), the
calls sell 2, sell 4 (fails at quantity 3) and return 1; the final
quantity is 5 plus the committed deltas and every committed state is
nonnegative. -/
theorem stock_sequence_final_and_nonneg_witness :
    (findProduct exDB1 1 = some ⟨1, "Widget", "SKU1", 5, 3⟩) ∧
    (stockOf (runStockCalls exDB1 1 exCalls).1 1 =
      some ((5 : Int) + successDeltaSum exCalls (runStockCalls exDB1 1 exCalls).2) ∧
     ∀ k q, stockOf (runStockCalls exDB1 1 (exCalls.take k)).1 1 = some q →
       0 ≤ q) :=
  ⟨by decide,
    stock_sequence_final_and_nonneg exDB1 1 exCalls ⟨1, "Widget", "SKU1", 5, 3⟩
      (by decide) (by decide)⟩

/-- C2 counterexample: at quantity 0 a sale of 1 violates the invariant,
and the code fails with the generic wrapped storage error of the check
constraint — not with a typed `InsufficientStock` error, which the source
never constructs. -/
theorem insufficientStock_never_typed_cex :
    stockOf exDB2 1 = some 0 ∧ ((0 : Int) + (-1) < 0) ∧
    updateProductStock exDB2 1 (-1) Reason.sale 7 "" ≠
      Except.error StockError.insufficientStock ∧
    updateProductStock exDB2 1 (-1) Reason.sale 7 "" =
      Except.error (StockError.storage "failed to update product stock") := by
  decide

/-- C2 amended: when the current quantity plus the requested delta is
negative, the transaction aborts and no quantity change is committed, but
the surfaced error is the generic storage error wrapping the database
check-constraint violation, not a typed `InsufficientStock`. -/
theorem negative_update_storage_error (db : DB) (pid : Nat) (c : Int)
    (r : Reason) (u : Nat) (n : String) (p0 : Product)
    (h0 : findProduct db pid = some p0) (hneg : p0.stock + c < 0) :
    updateProductStock db pid c r u n =
      Except.error (StockError.storage "failed to update product stock") ∧
    (runUpdateProductStock db pid c r u n).1 = db := by
  have h0' : db.products.find? (fun q : Product => q.pid == pid) = some p0 :=
    h0
  have hmem : p0 ∈ db.products := List.mem_of_find?_eq_some h0'
  have hpid : (p0.pid == pid) = true := by
    have := List.find?_some h0'
    simpa using this
  have hany :
      db.products.any (fun p => p.pid == pid && decide (p.stock + c < 0)) =
        true :=
    List.any_eq_true.mpr ⟨p0, hmem, by simp [hpid, hneg]⟩
  have h1 : updateProductStock db pid c r u n =
      Except.error (StockError.storage "failed to update product stock") := by
    unfold updateProductStock execStockUpdate
    simp [hany]
  refine ⟨h1, ?_⟩
  unfold runUpdateProductStock
  rw [h1]

/-- Witness for the amended C2 at the concrete store `exDB2`. -/
theorem negative_update_storage_error_witness :
    (findProduct exDB2 1 = some ⟨1, "Widget", "SKU1", 0, 5⟩) ∧
    ((0 : Int) + (-1) < 0) ∧
    (updateProductStock exDB2 1 (-1) Reason.sale 7 "" =
      Except.error (StockError.storage "failed to update product stock") ∧
     (runUpdateProductStock exDB2 1 (-1) Reason.sale 7 "").1 = exDB2) :=
  ⟨by decide, by decide,
    negative_update_storage_error exDB2 1 (-1) Reason.sale 7 ""
      ⟨1, "Widget", "SKU1", 0, 5⟩ (by decide) (by decide)⟩

/-- C3: every committed `UpdateProductStock` transaction appends exactly
one movement row whose `change` is the requested delta and whose
`product_id` is the requested product, and the same committed state
carries the matching quantity update — neither is observable without the
other. -/
theorem update_stock_appends_one_movement (db : DB) (pid : Nat) (c : Int)
    (r : Reason) (u : Nat) (n : String) (db' : DB)
    (h : updateProductStock db pid c r u n = Except.ok db') :
    db'.movements = db.movements ++ [⟨db.nextId, pid, c, r, u, n⟩] ∧
    ∃ p0, findProduct db pid = some p0 ∧
      findProduct db' pid = some { p0 with stock := p0.stock + c } := by
  obtain ⟨_, _, hdb⟩ := updateProductStock_ok_elim h
  obtain ⟨p0, h0⟩ := updateProductStock_ok_exists h
  obtain ⟨hfind, _⟩ := updateProductStock_ok_find h0 h
  exact ⟨by rw [hdb], p0, h0, hfind⟩

/-- Witness for C3: the committing sale of 2 against `exDB1`. -/
theorem update_stock_appends_one_movement_witness :
    exDB3res.movements = exDB1.movements ++ [⟨10, 1, -2, Reason.sale, 7, ""⟩] ∧
    ∃ p0, findProduct exDB1 1 = some p0 ∧
      findProduct exDB3res 1 = some { p0 with stock := p0.stock + (-2) } :=
  update_stock_appends_one_movement exDB1 1 (-2) Reason.sale 7 "" exDB3res
    (by decide)

/-- C4: a `UpdateProductStock` call that fails for any reason leaves the
committed store — in particular the product quantity and the movement
rows — exactly as it was (the transaction rolls back). -/
theorem failed_update_leaves_store_unchanged (db : DB) (pid : Nat) (c : Int)
    (r : Reason) (u : Nat) (n : String) (e : StockError)
    (h : (runUpdateProductStock db pid c r u n).2 = some e) :
    (runUpdateProductStock db pid c r u n).1 = db ∧
    stockOf (runUpdateProductStock db pid c r u n).1 pid = stockOf db pid ∧
    (runUpdateProductStock db pid c r u n).1.movements.length =
      db.movements.length := by
  cases hs : updateProductStock db pid c r u n with
  | ok db1 =>
    exfalso
    unfold runUpdateProductStock at h
    rw [hs] at h
    simp at h
  | error e1 =>
    have hrun : runUpdateProductStock db pid c r u n = (db, some e1) := by
      unfold runUpdateProductStock
      rw [hs]
    rw [hrun]
    exact ⟨rfl, rfl, rfl⟩

/-- Witness for C4: the failing sale of 1 against `exDB2`. -/
theorem failed_update_leaves_store_unchanged_witness :
    ((runUpdateProductStock exDB2 1 (-1) Reason.sale 7 "").2 =
      some (StockError.storage "failed to update product stock")) ∧
    ((runUpdateProductStock exDB2 1 (-1) Reason.sale 7 "").1 = exDB2 ∧
     stockOf (runUpdateProductStock exDB2 1 (-1) Reason.sale 7 "").1 1 =
       stockOf exDB2 1 ∧
     (runUpdateProductStock exDB2 1 (-1) Reason.sale 7 "").1.movements.length =
       exDB2.movements.length) :=
  ⟨by decide,
    failed_update_leaves_store_unchanged exDB2 1 (-1) Reason.sale 7 ""
      (StockError.storage "failed to update product stock") (by decide)⟩

/-- C5 counterexample: starting already inside the low-stock band
(quantity 9, threshold 10), two successive sales of 1 keep the quantity at
or below the threshold, yet each mutation persists its own low-stock
notification — two across the sequence, with no threshold transition at
all. -/
theorem low_stock_alert_no_dedup_cex :
    stockOf exDB5 1 = some 9 ∧ (9 : Int) ≤ 10 ∧
    stockOf (updateStock exDB5 1 (-1) Reason.sale 7 "").db 1 = some 8 ∧
    stockOf (updateStock (updateStock exDB5 1 (-1) Reason.sale 7 "").db 1 (-1)
      Reason.sale 7 "").db 1 = some 7 ∧
    lowStockNotifCount exDB5 = 0 ∧
    lowStockNotifCount (updateStock (updateStock exDB5 1 (-1) Reason.sale 7
      "").db 1 (-1) Reason.sale 7 "").db = 2 := by
  decide

/-- C5 amended: the handler persists a low-stock notification on every
successful mutation whose resulting quantity is at or below the product's
threshold while the threshold is positive, regardless of the previous
quantity — there is no transition check and no deduplication. -/
theorem low_stock_notif_every_sub_threshold_mutation (db : DB) (id : Nat)
    (c : Int) (r : Reason) (u : Nat) (notes : String) (db1 : DB)
    (p1 : Product)
    (h : updateProductStock db id c r u notes = Except.ok db1)
    (h1 : findProduct db1 id = some p1) :
    lowStockNotifCount (updateStock db id c r u notes).db =
      lowStockNotifCount db +
      (if p1.stock ≤ p1.minimumThreshold ∧ 0 < p1.minimumThreshold then 1
       else 0) := by
  obtain ⟨_, _, hdb⟩ := updateProductStock_ok_elim h
  obtain ⟨p0, h0⟩ := updateProductStock_ok_exists h
  have hnotif : db1.notifications = db.notifications := by rw [hdb]
  by_cases hcond : p1.stock ≤ p1.minimumThreshold ∧ 0 < p1.minimumThreshold
  · simp only [updateStock, getProduct, h0, h, h1, if_pos hcond]
    simp [lowStockNotifCount, List.filter_append, hnotif]
  · simp only [updateStock, getProduct, h0, h, h1, if_neg hcond]
    simp [lowStockNotifCount, hnotif, hcond]

/-- Witness for the amended C5: the first sale of 1 against `exDB5` lands
at quantity 8 of threshold 10 and persists one notification. -/
theorem low_stock_notif_every_sub_threshold_mutation_witness :
    (updateProductStock exDB5 1 (-1) Reason.sale 7 "" = Except.ok exDB5res) ∧
    (findProduct exDB5res 1 = some ⟨1, "Widget", "SKU1", 8, 10⟩) ∧
    lowStockNotifCount (updateStock exDB5 1 (-1) Reason.sale 7 "").db =
      lowStockNotifCount exDB5 +
      (if (8 : Int) ≤ 10 ∧ (0 : Int) < 10 then 1 else 0) :=
  ⟨by decide, by decide,
    low_stock_notif_every_sub_threshold_mutation exDB5 1 (-1) Reason.sale 7 ""
      exDB5res ⟨1, "Widget", "SKU1", 8, 10⟩ (by decide) (by decide)⟩

/-- C6 counterexample: a committing purchase of 3 against `exDB6`
persists the movement row with id 100, but the response's
`stock_movement` object carries the freshly generated id 101, which
identifies no persisted row; the response also carries no quantity. -/
theorem response_movement_id_not_persisted_cex :
    (updateStock exDB6 1 3 Reason.purchase 7 "").db.movements.map
      Movement.mid = [100] ∧
    (updateStock exDB6 1 3 Reason.purchase 7 "").response =
      Except.ok ⟨101, 1, 3, Reason.purchase, 7, ""⟩ ∧
    ¬ (101 ∈ (updateStock exDB6 1 3 Reason.purchase 7 "").db.movements.map
      Movement.mid) := by
  decide

/-- C6 amended: a successful `UpdateStock` call broadcasts the committed
post-mutation quantity as its `stock_change` event, and its response's
`stock_movement` object matches the requested product and delta, but the
id in that object is freshly generated and identifies no persisted
movement row. -/
theorem update_stock_response_fields (db : DB) (id : Nat) (c : Int)
    (r : Reason) (u : Nat) (notes : String) (db1 : DB) (p1 : Product)
    (h : updateProductStock db id c r u notes = Except.ok db1)
    (h1 : findProduct db1 id = some p1)
    (hfresh : ∀ m ∈ db.movements, m.mid < db.nextId) :
    ∃ resp, (updateStock db id c r u notes).response = Except.ok resp ∧
      resp.productId = id ∧ resp.change = c ∧
      (updateStock db id c r u notes).events.head? =
        some (Event.stockChange id p1.stock) ∧
      stockOf (updateStock db id c r u notes).db id = some p1.stock ∧
      resp.mid ∉ (updateStock db id c r u notes).db.movements.map
        Movement.mid := by
  obtain ⟨_, _, hdb⟩ := updateProductStock_ok_elim h
  obtain ⟨p0, h0⟩ := updateProductStock_ok_exists h
  have hmov : db1.movements =
      db.movements ++ [⟨db.nextId, id, c, r, u, notes⟩] := by rw [hdb]
  have hnext : db1.nextId = db.nextId + 1 := by rw [hdb]
  by_cases hcond : p1.stock ≤ p1.minimumThreshold ∧ 0 < p1.minimumThreshold
  · simp only [updateStock, getProduct, h0, h, h1, if_pos hcond]
    refine ⟨_, rfl, rfl, rfl, rfl, ?_, ?_⟩
    · simp only [stockOf, findProduct] at h1 ⊢
      rw [h1]
      rfl
    · intro hmem
      simp only [hmov, List.map_append, List.mem_append, List.map_cons,
        List.map_nil, List.mem_cons, List.mem_map, List.not_mem_nil,
        or_false] at hmem
      rcases hmem with ⟨m, hm, hmid⟩ | hmid
      · have := hfresh m hm
        omega
      · omega
  · simp only [updateStock, getProduct, h0, h, h1, if_neg hcond]
    refine ⟨_, rfl, rfl, rfl, rfl, ?_, ?_⟩
    · simp only [stockOf, findProduct] at h1 ⊢
      rw [h1]
      rfl
    · intro hmem
      simp only [hmov, List.map_append, List.mem_append, List.map_cons,
        List.map_nil, List.mem_cons, List.mem_map, List.not_mem_nil,
        or_false] at hmem
      rcases hmem with ⟨m, hm, hmid⟩ | hmid
      · have := hfresh m hm
        omega
      · omega

/-- Witness for the amended C6 at the concrete store `exDB6`. -/
theorem update_stock_response_fields_witness :
    (updateProductStock exDB6 1 3 Reason.purchase 7 "" =
      Except.ok exDB6res) ∧
    (findProduct exDB6res 1 = some ⟨1, "Widget", "SKU1", 8, 0⟩) ∧
    (∀ m ∈ exDB6.movements, m.mid < exDB6.nextId) ∧
    (∃ resp, (updateStock exDB6 1 3 Reason.purchase 7 "").response =
        Except.ok resp ∧
      resp.productId = 1 ∧ resp.change = 3 ∧
      (updateStock exDB6 1 3 Reason.purchase 7 "").events.head? =
        some (Event.stockChange 1 8) ∧
      stockOf (updateStock exDB6 1 3 Reason.purchase 7 "").db 1 = some 8 ∧
      resp.mid ∉ (updateStock exDB6 1 3 Reason.purchase 7 "").db.movements.map
        Movement.mid) :=
  ⟨by decide, by decide, by decide,
    update_stock_response_fields exDB6 1 3 Reason.purchase 7 "" exDB6res
      ⟨1, "Widget", "SKU1", 8, 0⟩ (by decide) (by decide) (by decide)⟩

/-- C7: the claim (sum of a product's movement deltas equals its current
quantity) is the spec's replayability invariant, and product creation
breaks it: `CreateProduct` inserts the row with `stock = req.Stock` and
then `UpdateProductStock` adds `req.Stock` again for the initial-stock
movement, so a product created with initial stock 10 is stored with
quantity 20 while its movement deltas sum to 10 — even though the
handler's own response still reports quantity 10. -/
theorem create_product_breaks_replayability :
    stockOf (createProduct ⟨[], [], [], 1⟩ "Widget" "SKU1" 10 5 7).db 1 =
      some 20 ∧
    movementSum (createProduct ⟨[], [], [], 1⟩ "Widget" "SKU1" 10 5 7).db 1 =
      10 ∧
    (createProduct ⟨[], [], [], 1⟩ "Widget" "SKU1" 10 5 7).response =
      Except.ok ⟨1, "Widget", "SKU1", 10, 5⟩ ∧
    (20 : Int) ≠ 10 := by
  decide

/-- C8: broadcasting an event to N registered sessions attempts a
non-blocking enqueue on every session's outbound queue: every session
with room receives the event appended, a session with a full queue keeps
its queue unchanged (only that delivery is dropped), and the drop counter
grows by the number of full queues. -/
theorem broadcast_fanout (h : Hub) (e : Event) :
    ((hubBroadcast h e).sessions.length = h.sessions.length) ∧
    (∀ s ∈ h.sessions, s.queue.length < s.capacity →
      Session.mk s.sid (s.queue ++ [e]) s.capacity ∈
        (hubBroadcast h e).sessions) ∧
    (∀ s ∈ h.sessions, s.capacity ≤ s.queue.length →
      s ∈ (hubBroadcast h e).sessions) ∧
    ((hubBroadcast h e).dropCount = h.dropCount +
      (h.sessions.filter (fun s => s.capacity ≤ s.queue.length)).length) := by
  refine ⟨by simp [hubBroadcast], ?_, ?_, rfl⟩
  · intro s hs hroom
    have hm : enqueueEvent e s ∈ (hubBroadcast h e).sessions :=
      List.mem_map.mpr ⟨s, hs, rfl⟩
    have he : enqueueEvent e s = Session.mk s.sid (s.queue ++ [e]) s.capacity := by
      simp [enqueueEvent, if_pos hroom]
    rwa [he] at hm
  · intro s hs hfull
    have hm : enqueueEvent e s ∈ (hubBroadcast h e).sessions :=
      List.mem_map.mpr ⟨s, hs, rfl⟩
    have he : enqueueEvent e s = s := by
      simp [enqueueEvent, Nat.not_lt.mpr hfull]
    rwa [he] at hm

/-- Witness for C8 at `exHub`: the session with room receives the event,
the full session keeps its queue, and the drop counter rises by one. -/
theorem broadcast_fanout_witness :
    (Session.mk 1 [Event.stockChange 1 5] 2 ∈
      (hubBroadcast exHub (Event.stockChange 1 5)).sessions) ∧
    (Session.mk 2 [Event.stockChange 9 9, Event.stockChange 9 8] 2 ∈
      (hubBroadcast exHub (Event.stockChange 1 5)).sessions) ∧
    (hubBroadcast exHub (Event.stockChange 1 5)).dropCount = 1 :=
  ⟨(broadcast_fanout exHub (Event.stockChange 1 5)).2.1 ⟨1, [], 2⟩
      (by decide) (by decide),
    (broadcast_fanout exHub (Event.stockChange 1 5)).2.2.1
      ⟨2, [Event.stockChange 9 9, Event.stockChange 9 8], 2⟩
      (by decide) (by decide),
    by decide⟩

/-- C9: every alert the dashboard derives has severity `critical` exactly
when the product's quantity is 0, and severity `high` in every other
case. -/
theorem alert_severity_critical_iff_zero (db : DB) :
    ∀ a ∈ getAlerts db,
      (a.severity = "critical" ↔ a.currentStock = 0) ∧
      (a.currentStock ≠ 0 → a.severity = "high") := by
  intro a ha
  unfold getAlerts at ha
  rw [List.mem_map] at ha
  obtain ⟨p, _hp, rfl⟩ := ha
  by_cases h : p.stock = 0 <;> simp [h]

/-- Witness for C9: of the two alerts `exDB9` yields, the zero-quantity
product's alert is critical and the quantity-3 product's alert is high. -/
theorem alert_severity_critical_iff_zero_witness :
    (((Alert.mk 1 "A" "S1" 0 5 "critical").severity = "critical" ↔
       (Alert.mk 1 "A" "S1" 0 5 "critical").currentStock = 0) ∧
     ((Alert.mk 1 "A" "S1" 0 5 "critical").currentStock ≠ 0 →
       (Alert.mk 1 "A" "S1" 0 5 "critical").severity = "high")) ∧
    (((Alert.mk 2 "B" "S2" 3 5 "high").severity = "critical" ↔
       (Alert.mk 2 "B" "S2" 3 5 "high").currentStock = 0) ∧
     ((Alert.mk 2 "B" "S2" 3 5 "high").currentStock ≠ 0 →
       (Alert.mk 2 "B" "S2" 3 5 "high").severity = "high")) :=
  ⟨alert_severity_critical_iff_zero exDB9 ⟨1, "A", "S1", 0, 5, "critical"⟩
      (by decide),
    alert_severity_critical_iff_zero exDB9 ⟨2, "B", "S2", 3, 5, "high"⟩
      (by decide)⟩

/-- C10: a product whose minimum threshold is 0 never yields a low-stock
alert or notification — not in the dashboard alert list, not in the
snapshot pushed to a newly connected client, and not from a stock
mutation — even at quantity 0. -/
theorem zero_threshold_no_alerts (db : DB) (p : Product) (c : Int)
    (r : Reason) (u : Nat) (notes : String)
    (hmem : p ∈ db.products) (hthr : p.minimumThreshold = 0)
    (hnodup : (db.products.map Product.pid).Nodup) :
    (∀ a ∈ getAlerts db, a.productId ≠ p.pid) ∧
    (∀ q ∈ lowStockSnapshotRows db, q.pid ≠ p.pid) ∧
    (updateStock db p.pid c r u notes).db.notifications = db.notifications ∧
    (∀ ev ∈ (updateStock db p.pid c r u notes).events,
      ∀ uid msg t, ev ≠ Event.notification uid msg t) := by
  have hinj := List.inj_on_of_nodup_map hnodup
  have hsnap : ∀ q ∈ lowStockSnapshotRows db, q.pid ≠ p.pid := by
    intro q hq heq
    rw [lowStockSnapshotRows, List.mem_filter] at hq
    obtain ⟨hqmem, hqpred⟩ := hq
    simp only [Bool.and_eq_true, decide_eq_true_eq] at hqpred
    have : q = p := hinj hqmem hmem heq
    rw [this, hthr] at hqpred
    omega
  refine ⟨?_, hsnap, ?_⟩
  · intro a ha
    unfold getAlerts at ha
    rw [List.mem_map] at ha
    obtain ⟨q, hq, rfl⟩ := ha
    have hq1 : q ∈ List.insertionSort
        (fun a b : Product => a.stock ≤ b.stock)
        (db.products.filter (fun p =>
          decide (p.stock ≤ p.minimumThreshold) &&
          decide (0 < p.minimumThreshold))) :=
      List.take_subset 10 _ hq
    have hq2 : q ∈ db.products.filter (fun p =>
        decide (p.stock ≤ p.minimumThreshold) &&
        decide (0 < p.minimumThreshold)) :=
      (List.perm_insertionSort _ _).mem_iff.mp hq1
    exact hsnap q hq2
  · have hfp : findProduct db p.pid = some p := by
      have hsome : (findProduct db p.pid).isSome := by
        rw [findProduct, List.find?_isSome]
        exact ⟨p, hmem, by simp⟩
      obtain ⟨p', hp'⟩ := Option.isSome_iff_exists.mp hsome
      have h0' : db.products.find? (fun q : Product => q.pid == p.pid) =
          some p' := hp'
      have hp'mem : p' ∈ db.products := List.mem_of_find?_eq_some h0'
      have hp'pid : p'.pid = p.pid := by
        have := List.find?_some h0'
        simpa using this
      have : p' = p := hinj hp'mem hmem hp'pid
      rw [hp']
      rw [this]
    cases hs : updateProductStock db p.pid c r u notes with
    | error e =>
      simp only [updateStock, getProduct, hfp, hs]
      simp
    | ok db1 =>
      obtain ⟨_, _, hdb⟩ := updateProductStock_ok_elim hs
      obtain ⟨hfind, _⟩ := updateProductStock_ok_find hfp hs
      have hnotif : db1.notifications = db.notifications := by rw [hdb]
      have hcond : ¬ ((({ p with stock := p.stock + c } : Product)).stock ≤
          ({ p with stock := p.stock + c } : Product).minimumThreshold ∧
          0 < ({ p with stock := p.stock + c } : Product).minimumThreshold) := by
        simp only [hthr]
        simp
      simp only [updateStock, getProduct, hfp, hs, hfind, if_neg hcond]
      simp [hnotif]

/-- Witness for C10 at `exDB10`: the zero-threshold product at quantity 0
triggers nothing while a purchase of 5 commits against it. -/
theorem zero_threshold_no_alerts_witness :
    ((⟨1, "A", "S1", 0, 0⟩ : Product) ∈ exDB10.products) ∧
    ((∀ a ∈ getAlerts exDB10, a.productId ≠ 1) ∧
     (∀ q ∈ lowStockSnapshotRows exDB10, q.pid ≠ 1) ∧
     (updateStock exDB10 1 5 Reason.purchase 7 "").db.notifications =
       exDB10.notifications ∧
     (∀ ev ∈ (updateStock exDB10 1 5 Reason.purchase 7 "").events,
       ∀ uid msg t, ev ≠ Event.notification uid msg t)) :=
  ⟨by decide,
    zero_threshold_no_alerts exDB10 ⟨1, "A", "S1", 0, 0⟩ 5 Reason.purchase 7 ""
      (by decide) (by decide) (by decide)⟩

end RTIMS
